import Mathlib

/-!
Shallow embedding of the Tshirt hydrological model core
(src/models/tshirt/include/Tshirt.h) over exact rational arithmetic.

The external collaborators that the header includes but whose code is not
under src/ (schaake_partitioning.hpp, Nonlinear_Reservoir.hpp, GIUH.hpp,
Pdm03.h, Constants.h) are represented as explicit parameters bundled in
ExternalEnv, or as executable definitions modelled from the interface
contracts the specification gives for them (see the doc comments below).
Doubles are embedded as rationals; null pointers and unchecked vector
indexing are embedded as Option-valued accesses.
-/

/-- Modelled from the spec: the outlet configuration record of the external
reservoir engine (Nonlinear_Reservoir.hpp, not under src/): a coefficient,
an exponent, an activation threshold and a maximum velocity cap. -/
structure Reservoir_Outlet where
  coefficient : ℚ
  exponent : ℚ
  activation_threshold : ℚ
  max_velocity : ℚ
deriving DecidableEq, Repr

/-- Modelled from the spec: a default-constructed outlet, as produced by the
elements of a default-initialized outlet vector. -/
instance : Inhabited Reservoir_Outlet :=
  ⟨{ coefficient := 0, exponent := 0, activation_threshold := 0, max_velocity := 0 }⟩

/-- Modelled from the spec: the external nonlinear reservoir
(Nonlinear_Reservoir.hpp, not under src/): a bounded storage with a list of
outlets.  The outlet velocities computed by the most recent response step are
kept so that the per-outlet velocity accessor can be queried afterwards. -/
structure Nonlinear_Reservoir where
  min_storage : ℚ
  max_storage : ℚ
  storage : ℚ
  outlets : List Reservoir_Outlet
  outlet_velocities : List ℚ := []
deriving DecidableEq, Repr

/-- The single-outlet reservoir constructor
(min storage, max storage, initial storage, coefficient, exponent,
activation threshold, max velocity). -/
def Nonlinear_Reservoir.mkSingle (minS maxS initS coeff expo act maxV : ℚ) :
    Nonlinear_Reservoir :=
  { min_storage := minS, max_storage := maxS, storage := initS,
    outlets := [{ coefficient := coeff, exponent := expo,
                  activation_threshold := act, max_velocity := maxV }] }

/-- The multi-outlet reservoir constructor
(min storage, max storage, initial storage, outlet vector). -/
def Nonlinear_Reservoir.mkMulti (minS maxS initS : ℚ)
    (outs : List Reservoir_Outlet) : Nonlinear_Reservoir :=
  { min_storage := minS, max_storage := maxS, storage := initS, outlets := outs }

/-- Abstract interfaces of the external collaborators (spec section 6) and of
the math-library functions the header uses, bundled as explicit parameters:
`powf` and `rexp` stand for pow and exp from cmath, the two physical
constants come from Constants.h, `schaake` is the infiltration partitioner
(dt, constant, deficit, input, returning surface runoff and infiltration),
`giuh_output` is the unit-hydrograph operator for the single call a step
makes, and `et` is the evapotranspiration loss as a function of the
post-routing soil storage (the net effect of the pdm03 wrapper call). -/
structure ExternalEnv where
  powf : ℚ → ℚ → ℚ
  rexp : ℚ → ℚ
  ATMOSPHERIC_PRESSURE_PASCALS : ℚ
  WATER_SPECIFIC_WEIGHT : ℚ
  schaake : ℚ → ℚ → ℚ → ℚ → ℚ × ℚ
  giuh_output : ℚ → ℚ → ℚ
  et : ℚ → ℚ

/-- Modelled from the spec: the velocity of one outlet at a given storage
level (Nonlinear_Reservoir.hpp internals are not under src/; spec sections 6
and the glossary require zero discharge below the activation threshold and a
coefficient-and-exponent velocity law capped at the maximum velocity). -/
def Reservoir_Outlet.velocity (env : ExternalEnv) (maxS : ℚ)
    (o : Reservoir_Outlet) (S : ℚ) : ℚ :=
  if S ≤ o.activation_threshold then 0
  else
    min o.max_velocity
      (o.coefficient *
        env.powf ((S - o.activation_threshold) / (maxS - o.activation_threshold)) o.exponent)

/-- Modelled from the spec: one response step of the external reservoir
(spec section 6): given an input velocity and a time step it returns the
total outlet velocity and the excess, advancing the storage, which is kept
within [min storage, max storage]; inflow that cannot be absorbed is
reported as excess rather than dropped. -/
def Nonlinear_Reservoir.response_meters_per_second (env : ExternalEnv)
    (r : Nonlinear_Reservoir) (in_flux dt : ℚ) : ℚ × ℚ × Nonlinear_Reservoir :=
  let vs := r.outlets.map fun o => o.velocity env r.max_storage r.storage
  let velocity_all_outlets := vs.sum
  let raw := r.storage + (in_flux - velocity_all_outlets) * dt
  let excess := max 0 (raw - r.max_storage)
  let new_storage := max r.min_storage (min r.max_storage raw)
  (velocity_all_outlets, excess,
    { r with storage := new_storage, outlet_velocities := vs })

/-- Accessor for the current storage height. -/
def Nonlinear_Reservoir.get_storage_height_meters (r : Nonlinear_Reservoir) : ℚ :=
  r.storage

/-- Accessor for the velocity of one outlet from the most recent step. -/
def Nonlinear_Reservoir.velocity_meters_per_second_for_outlet
    (r : Nonlinear_Reservoir) (i : ℕ) : ℚ :=
  r.outlet_velocities.getD i 0

/-- The Tshirt parameter structure (Tshirt.h lines 21-68), with the three
derived fields stored alongside the primaries exactly as in the source. -/
structure tshirt_params where
  maxsmc : ℚ
  wltsmc : ℚ
  satdk : ℚ
  satpsi : ℚ
  slope : ℚ
  b : ℚ
  multiplier : ℚ
  alpha_fc : ℚ
  Klf : ℚ
  Kn : ℚ
  nash_n : ℕ
  Cgw : ℚ
  Cschaake : ℚ
  expon : ℚ
  max_soil_storage_meters : ℚ
  max_groundwater_storage_meters : ℚ
  max_lateral_flow : ℚ
deriving DecidableEq, Repr

/-- The constant soil column depth member (const double depth = 2.0). -/
def tshirt_params.depth (_p : tshirt_params) : ℚ := 2

/-- The tshirt_params constructor (Tshirt.h lines 46-66): stores every
primary unchanged and computes the three derived values; it performs no
validation of any input. -/
def tshirt_params.make (maxsmc wltsmc satdk satpsi slope b multiplier alpha_fc
    Klf Kn : ℚ) (nash_n : ℕ) (Cgw expon max_gw_storage : ℚ) : tshirt_params :=
  let max_soil_storage_meters := (2 : ℚ) * maxsmc
  { maxsmc := maxsmc, wltsmc := wltsmc, satdk := satdk, satpsi := satpsi,
    slope := slope, b := b, multiplier := multiplier, alpha_fc := alpha_fc,
    Klf := Klf, Kn := Kn, nash_n := nash_n, Cgw := Cgw,
    Cschaake := 3 * satdk / (2 / 1000000),
    expon := expon,
    max_soil_storage_meters := max_soil_storage_meters,
    max_groundwater_storage_meters := max_gw_storage,
    max_lateral_flow := satdk * multiplier * max_soil_storage_meters }

/-- The Tshirt state structure (Tshirt.h lines 75-89).  The raw pointer to
the Nash cascade storages is embedded as an optional list (none models the
nullptr default argument of the constructor). -/
structure tshirt_state where
  soil_storage_meters : ℚ
  groundwater_storage_meters : ℚ
  nash_cascade_storeage_meters : Option (List ℚ) := none
deriving DecidableEq, Repr

/-- The Tshirt flux structure (Tshirt.h lines 96-111). -/
structure tshirt_fluxes where
  surface_runoff_meters_per_second : ℚ
  groundwater_flow_meters_per_second : ℚ
  soil_percolation_flow_meters_per_second : ℚ
  soil_lateral_flow_meters_per_second : ℚ
  et_loss_meters : ℚ
deriving DecidableEq, Repr

/-- The index of the subsurface lateral flow outlet (Tshirt.h line 306). -/
def tshirt_kernel.lf_outlet_index : ℕ := 0

/-- The index of the percolation flow outlet (Tshirt.h line 307). -/
def tshirt_kernel.perc_outlet_index : ℕ := 1

/-- Soil field capacity storage Sfc (Tshirt.h lines 255-267); the state
argument is accepted but unused, as in the source. -/
def tshirt_kernel.calc_soil_field_capacity_storage (env : ExternalEnv)
    (params : tshirt_params) (_state : tshirt_state) : ℚ :=
  let head_above_water_table :=
    params.alpha_fc * (env.ATMOSPHERIC_PRESSURE_PASCALS / env.WATER_SPECIFIC_WEIGHT)
  let z1 := head_above_water_table - 1/2
  let z2 := z1 + 2
  params.maxsmc * env.powf (1 / params.satpsi) (-1 / params.b) *
    ((params.b * env.powf z2 ((params.b - 1) / params.b) / (params.b - 1)) -
     (params.b * env.powf z1 ((params.b - 1) / params.b) / (params.b - 1)))

/-- Evapotranspiration loss (Tshirt.h lines 240-246): the pdm03 wrapper is
external, so its net effect, the loss returned for a given soil storage, is
the abstract function of the environment. -/
def tshirt_kernel.calc_evapotranspiration (env : ExternalEnv) (soil_m : ℚ) : ℚ :=
  env.et soil_m

/-- Construction of the Nash cascade vector (Tshirt.h lines 269-279): for
each index below nash_n the storage is read through the state pointer, which
is an Option-valued access in this embedding. -/
def tshirt_kernel.init_nash_cascade_vector (params : tshirt_params)
    (state : tshirt_state) (activation max_flow_velocity : ℚ) :
    Option (List Nonlinear_Reservoir) :=
  (List.range params.nash_n).mapM fun i =>
    (state.nash_cascade_storeage_meters.bind fun arr => arr.get? i).map fun s =>
      Nonlinear_Reservoir.mkSingle 0 params.max_soil_storage_meters s
        params.Kn 1 activation max_flow_velocity

/-- The two subsurface outlets in index order, lateral flow at index 0 and
percolation at index 1, with the values the two assignments in run give them
(Tshirt.h lines 310-314). -/
def tshirt_kernel.run_subsurface_outlets (params : tshirt_params) (Sfc : ℚ) :
    List Reservoir_Outlet :=
  [{ coefficient := params.Klf, exponent := 1, activation_threshold := Sfc,
     max_velocity := params.max_lateral_flow },
   { coefficient := params.satdk * params.slope, exponent := 1,
     activation_threshold := Sfc, max_velocity := params.satdk }]

/-- The subsurface soil reservoir constructed by run (Tshirt.h line 316):
min storage 0, max storage params.depth, initial storage from the state. -/
def tshirt_kernel.run_subsurface_reservoir (env : ExternalEnv)
    (params : tshirt_params) (state : tshirt_state) : Nonlinear_Reservoir :=
  Nonlinear_Reservoir.mkMulti 0 params.depth state.soil_storage_meters
    (tshirt_kernel.run_subsurface_outlets params
      (tshirt_kernel.calc_soil_field_capacity_storage env params state))

/-- The groundwater reservoir constructed by run (Tshirt.h lines 353-356):
note that the exponent argument passed is the literal 1, while the maximum
velocity is Cgw times (exp(expon) minus 1). -/
def tshirt_kernel.run_groundwater_reservoir (env : ExternalEnv)
    (params : tshirt_params) (state : tshirt_state) : Nonlinear_Reservoir :=
  Nonlinear_Reservoir.mkSingle 0 params.max_groundwater_storage_meters
    state.groundwater_storage_meters params.Cgw 1 0
    (params.Cgw * (env.rexp params.expon - 1))

/-- The Nash cascade loop of run (Tshirt.h lines 339-344): the running Qlf
is fed to each stage in order; after each stage responds, that stage's
excess divided by dt is added to the running Qlf before it is fed to the
next stage.  The post-step reservoirs are returned alongside the final Qlf
(the source keeps them in a local vector that it then discards). -/
def tshirt_kernel.nash_loop (env : ExternalEnv) (dt : ℚ) :
    List Nonlinear_Reservoir → ℚ → ℚ × List Nonlinear_Reservoir
  | [], Qlf => (Qlf, [])
  | r :: rest, Qlf =>
    let step := r.response_meters_per_second env Qlf dt
    let Qlf1 := step.1 + step.2.1 / dt
    let tail := tshirt_kernel.nash_loop env dt rest Qlf1
    (tail.1, step.2.2 :: tail.2)

/-- One time step of the Tshirt kernel (Tshirt.h lines 282-371), under the
intended semantics of the subsurface outlet initialization: the outlet
vector holds the lateral flow outlet at index 0 and the percolation outlet
at index 1 (the written values, in index order); see run_checked below for
the literal empty-vector embedding.  The new state is produced from the
in-out new_state argument: run writes only its soil and groundwater fields,
so the cascade storage field keeps whatever value the caller passed in.  The
Option-valued result is none exactly when the Nash cascade construction
reads through a null cascade storage pointer.  The soil reservoir's own
excess out-parameter value is never read: the cascade loop overwrites it
before any use, and when the cascade is empty it is dropped. -/
def tshirt_kernel.run (env : ExternalEnv) (dt : ℚ) (params : tshirt_params)
    (state : tshirt_state) (new_state0 : tshirt_state)
    (input_flux_meters : ℚ) : Option (tshirt_state × tshirt_fluxes) :=
  let column_total_soil_moisture_deficit :=
    params.max_soil_storage_meters - state.soil_storage_meters
  let partitioned :=
    env.schaake dt params.Cschaake column_total_soil_moisture_deficit input_flux_meters
  let surface_runoff := partitioned.1
  let subsurface_infiltration_flux := partitioned.2
  let Sfc := tshirt_kernel.calc_soil_field_capacity_storage env params state
  let subsurface_reservoir := tshirt_kernel.run_subsurface_reservoir env params state
  let soil_step :=
    subsurface_reservoir.response_meters_per_second env subsurface_infiltration_flux dt
  let _subsurface_excess := soil_step.2.1
  let soil_res_after := soil_step.2.2
  let Qlf := soil_res_after.velocity_meters_per_second_for_outlet tshirt_kernel.lf_outlet_index
  let Qperc := soil_res_after.velocity_meters_per_second_for_outlet tshirt_kernel.perc_outlet_index
  let new_soil_storage := soil_res_after.get_storage_height_meters
  let et_loss := tshirt_kernel.calc_evapotranspiration env new_soil_storage
  match tshirt_kernel.init_nash_cascade_vector params state Sfc params.max_lateral_flow with
  | none => none
  | some nash_cascade =>
    let routed := tshirt_kernel.nash_loop env dt nash_cascade Qlf
    let Qlf_final := routed.1
    let groundwater_res := tshirt_kernel.run_groundwater_reservoir env params state
    let gw_step := groundwater_res.response_meters_per_second env Qperc dt
    some
      ({ new_state0 with
          soil_storage_meters := new_soil_storage - et_loss,
          groundwater_storage_meters := gw_step.2.2.get_storage_height_meters },
       { surface_runoff_meters_per_second := env.giuh_output dt surface_runoff,
         groundwater_flow_meters_per_second := gw_step.1,
         soil_percolation_flow_meters_per_second := Qperc,
         soil_lateral_flow_meters_per_second := Qlf_final,
         et_loss_meters := et_loss })

/-- The post-routing soil storage of one step: the storage height of the
subsurface reservoir after its response, before the ET loss is subtracted
(Tshirt.h line 328). -/
def tshirt_kernel.run_new_soil_storage (env : ExternalEnv) (dt : ℚ)
    (params : tshirt_params) (state : tshirt_state) (input_flux_meters : ℚ) : ℚ :=
  let partitioned :=
    env.schaake dt params.Cschaake
      (params.max_soil_storage_meters - state.soil_storage_meters) input_flux_meters
  ((tshirt_kernel.run_subsurface_reservoir env params state).response_meters_per_second
      env partitioned.2 dt).2.2.get_storage_height_meters

/-- The lateral flow velocity entering the Nash cascade: the lateral flow
outlet velocity of the subsurface reservoir after its response
(Tshirt.h line 322). -/
def tshirt_kernel.run_Qlf0 (env : ExternalEnv) (dt : ℚ) (params : tshirt_params)
    (state : tshirt_state) (input_flux_meters : ℚ) : ℚ :=
  let partitioned :=
    env.schaake dt params.Cschaake
      (params.max_soil_storage_meters - state.soil_storage_meters) input_flux_meters
  (((tshirt_kernel.run_subsurface_reservoir env params state).response_meters_per_second
      env partitioned.2 dt).2.2).velocity_meters_per_second_for_outlet
    tshirt_kernel.lf_outlet_index

/-- The post-step storages of the Nash cascade reservoirs that run builds
and advances: these values are held only in a local vector inside run and
are never written into the new state. -/
def tshirt_kernel.run_nash_final_storages (env : ExternalEnv) (dt : ℚ)
    (params : tshirt_params) (state : tshirt_state) (input_flux_meters : ℚ) :
    Option (List ℚ) :=
  let Sfc := tshirt_kernel.calc_soil_field_capacity_storage env params state
  let Qlf := tshirt_kernel.run_Qlf0 env dt params state input_flux_meters
  (tshirt_kernel.init_nash_cascade_vector params state Sfc params.max_lateral_flow).map
    fun nash_cascade =>
      (tshirt_kernel.nash_loop env dt nash_cascade Qlf).2.map Nonlinear_Reservoir.storage

/-- A bounds-checked list write: the embedding of operator[] assignment on a
vector, which is defined only at an index below the current size. -/
def setChecked (l : List Reservoir_Outlet) (i : ℕ) (v : Reservoir_Outlet) :
    Option (List Reservoir_Outlet) :=
  if i < l.length then some (l.set i v) else none

/-- Error outcomes of the literal total embedding of run. -/
inductive TshirtRunError where
  | outletIndexOutOfBounds
  | nullCascadePointer
deriving DecidableEq, Repr

/-- The literal total embedding of run (Tshirt.h lines 282-371): the
subsurface outlet vector is default-constructed with size 0 (line 303) and
the two outlets are then assigned through operator[] at indices 0 and 1
without any resize (lines 310-314), so each assignment is a checked write
here.  When both writes succeed the rest of the computation is exactly the
intended-semantics run above, whose outlet vector coincides with the written
values. -/
def tshirt_kernel.run_checked (env : ExternalEnv) (dt : ℚ) (params : tshirt_params)
    (state : tshirt_state) (new_state0 : tshirt_state) (input_flux_meters : ℚ) :
    Except TshirtRunError (tshirt_state × tshirt_fluxes) :=
  let column_total_soil_moisture_deficit :=
    params.max_soil_storage_meters - state.soil_storage_meters
  let _partitioned :=
    env.schaake dt params.Cschaake column_total_soil_moisture_deficit input_flux_meters
  let Sfc := tshirt_kernel.calc_soil_field_capacity_storage env params state
  let subsurface_outlets : List Reservoir_Outlet := []
  match setChecked subsurface_outlets tshirt_kernel.lf_outlet_index
      { coefficient := params.Klf, exponent := 1, activation_threshold := Sfc,
        max_velocity := params.max_lateral_flow } with
  | none => Except.error TshirtRunError.outletIndexOutOfBounds
  | some outlets0 =>
    match setChecked outlets0 tshirt_kernel.perc_outlet_index
        { coefficient := params.satdk * params.slope, exponent := 1,
          activation_threshold := Sfc, max_velocity := params.satdk } with
    | none => Except.error TshirtRunError.outletIndexOutOfBounds
    | some _outlets1 =>
      match tshirt_kernel.run env dt params state new_state0 input_flux_meters with
      | none => Except.error TshirtRunError.nullCascadePointer
      | some r => Except.ok r

/-- The model instance record (Tshirt.h lines 124-223): the members the
constructor initializes. -/
structure tshirt_model where
  model_params : tshirt_params
  previous_state : tshirt_state
  current_state : tshirt_state
  soil_lf_nash_res : List Nonlinear_Reservoir
  soil_reservoir : Nonlinear_Reservoir
  groundwater_reservoir : Nonlinear_Reservoir
deriving DecidableEq, Repr

/-- Modelled from the spec: tshirt_model::calc_soil_field_capacity_storage
is declared at Tshirt.h line 190 but its definition is not under src/; spec
sections 4.1 and 4.3 state that it is the same pure field capacity formula
as the kernel's static version, so it is that formula. -/
def tshirt_model.calc_soil_field_capacity_storage (env : ExternalEnv)
    (params : tshirt_params) (state : tshirt_state) : ℚ :=
  tshirt_kernel.calc_soil_field_capacity_storage env params state

/-- The two-argument tshirt_model constructor (Tshirt.h lines 128-171):
computes Sfc once, builds the Nash cascade vector by reading the initial
state's cascade storage pointer (an Option-valued access here), then builds
the soil reservoir from a size-2 outlet vector written at indices 0 and 1,
and the groundwater reservoir.  The result is none exactly when a cascade
storage read fails. -/
def tshirt_model.construct (env : ExternalEnv) (model_params : tshirt_params)
    (initial_state : tshirt_state) : Option tshirt_model :=
  let Sfc := tshirt_model.calc_soil_field_capacity_storage env model_params initial_state
  ((List.range model_params.nash_n).mapM fun i =>
      (initial_state.nash_cascade_storeage_meters.bind fun arr => arr.get? i).map fun s =>
        Nonlinear_Reservoir.mkSingle 0 model_params.max_soil_storage_meters s
          model_params.Kn 1 Sfc model_params.max_lateral_flow).map fun nash =>
    let soil_res_outlets0 := List.replicate 2 (default : Reservoir_Outlet)
    let soil_res_outlets1 :=
      soil_res_outlets0.set 0
        { coefficient := model_params.Klf, exponent := 1, activation_threshold := Sfc,
          max_velocity := model_params.max_lateral_flow }
    let soil_res_outlets :=
      soil_res_outlets1.set 1
        { coefficient := model_params.satdk * model_params.slope, exponent := 1,
          activation_threshold := Sfc, max_velocity := model_params.satdk }
    { model_params := model_params,
      previous_state := initial_state,
      current_state := initial_state,
      soil_lf_nash_res := nash,
      soil_reservoir :=
        Nonlinear_Reservoir.mkMulti 0 model_params.depth
          initial_state.soil_storage_meters soil_res_outlets,
      groundwater_reservoir :=
        Nonlinear_Reservoir.mkSingle 0 model_params.max_groundwater_storage_meters
          initial_state.groundwater_storage_meters model_params.Cgw 1 0
          (model_params.Cgw * (env.rexp model_params.expon - 1)) }

/-- The single-argument tshirt_model constructor (Tshirt.h lines 173-174):
delegates with a default state of soil 0, groundwater 0 and a null cascade
storage pointer. -/
def tshirt_model.construct_default (env : ExternalEnv)
    (model_params : tshirt_params) : Option tshirt_model :=
  tshirt_model.construct env model_params
    { soil_storage_meters := 0, groundwater_storage_meters := 0,
      nash_cascade_storeage_meters := none }

/-- A concrete external environment used for concrete evaluations: constant
power function, constant exponential, a partitioner sending everything to
infiltration, an identity unit hydrograph, and zero ET loss. -/
def envA : ExternalEnv :=
  { powf := fun _ _ => 1,
    rexp := fun _ => 1,
    ATMOSPHERIC_PRESSURE_PASCALS := 101325,
    WATER_SPECIFIC_WEIGHT := 9810,
    schaake := fun _ _ _ input => (0, input),
    giuh_output := fun _ r => r,
    et := fun _ => 0 }

/-- The environment envA with an ET submodel whose loss exceeds the storage
it is given by one meter. -/
def envC : ExternalEnv :=
  { envA with et := fun s => s + 1 }

/-- Concrete parameters: maxsmc 1/4, zero conductivity, b 2, no cascade
stages, groundwater max storage 1. -/
def paramsA : tshirt_params :=
  tshirt_params.make (1/4) 0 0 1 0 2 0 0 0 0 0 0 0 1

/-- Concrete parameters: maxsmc 1/4, satdk 1, multiplier 1, Klf 1, Kn 1,
one cascade stage, groundwater max storage 1. -/
def paramsB : tshirt_params :=
  tshirt_params.make (1/4) 0 1 1 0 2 1 0 1 1 1 0 0 1

/-- Concrete parameters with Cgw 1/2 and groundwater exponent 5. -/
def paramsC : tshirt_params :=
  tshirt_params.make 1 0 0 1 0 2 0 0 0 0 0 (1/2) 5 1

/-- Concrete parameters with two cascade stages. -/
def paramsD : tshirt_params :=
  tshirt_params.make (1/4) 0 1 1 1 2 1 0 1 1 2 1 1 1

/-- Concrete state: soil storage 1, one cascade stage storage at 0. -/
def stateB : tshirt_state :=
  { soil_storage_meters := 1, groundwater_storage_meters := 0,
    nash_cascade_storeage_meters := some [0] }

/-- Concrete state with two cascade stage storages. -/
def stateD : tshirt_state :=
  { soil_storage_meters := 0, groundwater_storage_meters := 0,
    nash_cascade_storeage_meters := some [0, 0] }

/-- The zero state with a null cascade storage pointer. -/
def stateZ : tshirt_state :=
  { soil_storage_meters := 0, groundwater_storage_meters := 0,
    nash_cascade_storeage_meters := none }

/-- The new state produced by run at envA, dt 1, paramsA, stateZ, input 10. -/
def nsA : tshirt_state :=
  { soil_storage_meters := 2, groundwater_storage_meters := 0,
    nash_cascade_storeage_meters := none }

/-- The all-zero flux bundle. -/
def flA : tshirt_fluxes :=
  { surface_runoff_meters_per_second := 0, groundwater_flow_meters_per_second := 0,
    soil_percolation_flow_meters_per_second := 0,
    soil_lateral_flow_meters_per_second := 0, et_loss_meters := 0 }

/-- The new state produced by run at envA, dt 1, paramsB, stateB, input 0. -/
def nsB : tshirt_state :=
  { soil_storage_meters := 1/2, groundwater_storage_meters := 0,
    nash_cascade_storeage_meters := none }

/-- The new state produced by run at envC, dt 1, paramsA, stateZ, input 10. -/
def nsC6 : tshirt_state :=
  { soil_storage_meters := -1, groundwater_storage_meters := 0,
    nash_cascade_storeage_meters := none }

/-- The flux bundle with an ET loss of 3 and all other fluxes zero. -/
def flC6 : tshirt_fluxes :=
  { surface_runoff_meters_per_second := 0, groundwater_flow_meters_per_second := 0,
    soil_percolation_flow_meters_per_second := 0,
    soil_lateral_flow_meters_per_second := 0, et_loss_meters := 3 }

/-- The single post-response cascade reservoir arising at envA, dt 1,
paramsB, stateB: Kn 1, activation 0, max velocity 1/2, storage 0 before the
step. -/
def ncB : List Nonlinear_Reservoir :=
  [{ min_storage := 0, max_storage := 1/2, storage := 0,
     outlets := [{ coefficient := 1, exponent := 1, activation_threshold := 0,
                   max_velocity := 1/2 }],
     outlet_velocities := [] }]

/-- Helper: the first component of the Nash cascade loop is a left fold that
feeds each stage the previous running Qlf and adds that stage's excess
divided by dt into the running value. -/
theorem nash_loop_fst_eq_foldl (env : ExternalEnv) (dt : ℚ) :
    ∀ (l : List Nonlinear_Reservoir) (q : ℚ),
      (tshirt_kernel.nash_loop env dt l q).1 =
        l.foldl (fun q r =>
          (r.response_meters_per_second env q dt).1 +
            (r.response_meters_per_second env q dt).2.1 / dt) q
  | [], _ => rfl
  | r :: rest, q => by
    simp only [tshirt_kernel.nash_loop, List.foldl_cons]
    exact nash_loop_fst_eq_foldl env dt rest _

/-- Helper: an Option-valued mapM whose function succeeds pointwise is the
map of the pointwise values. -/
theorem list_mapM_option_eq_map {α β : Type} (g : α → Option β) (f : α → β) :
    ∀ as : List α, (∀ a ∈ as, g a = some (f a)) → as.mapM g = some (as.map f)
  | [], _ => rfl
  | a :: as, h => by
    have h1 : g a = some (f a) := h a (List.mem_cons_self a as)
    have h2 := list_mapM_option_eq_map g f as fun x hx => h x (List.mem_cons_of_mem a hx)
    rw [List.mapM_cons, h1, h2]
    rfl

/-- Helper: an in-bounds optional lookup returns the default-valued read. -/
theorem list_get?_eq_getD {l : List ℚ} {i : ℕ} (h : i < l.length) :
    l.get? i = some (l.getD i 0) := by
  rw [List.get?_eq_getElem?, List.getD_eq_getElem?_getD, List.getElem?_eq_getElem h]
  rfl

/-- Claim C9: for every finite input to the tshirt_params constructor, the
three derived values satisfy exactly max_soil_storage_meters = depth x
maxsmc (with depth = 2), Cschaake = 3 x satdk / (2e-6), and
max_lateral_flow = satdk x multiplier x max_soil_storage_meters; the
constructor is the only assignment site of these fields in the embedding. -/
theorem C9_derived_values (maxsmc wltsmc satdk satpsi slope b multiplier
    alpha_fc Klf Kn : ℚ) (nash_n : ℕ) (Cgw expon max_gw_storage : ℚ) :
    (tshirt_params.make maxsmc wltsmc satdk satpsi slope b multiplier alpha_fc
        Klf Kn nash_n Cgw expon max_gw_storage).max_soil_storage_meters =
      (tshirt_params.make maxsmc wltsmc satdk satpsi slope b multiplier alpha_fc
        Klf Kn nash_n Cgw expon max_gw_storage).depth * maxsmc ∧
    (tshirt_params.make maxsmc wltsmc satdk satpsi slope b multiplier alpha_fc
        Klf Kn nash_n Cgw expon max_gw_storage).depth = 2 ∧
    (tshirt_params.make maxsmc wltsmc satdk satpsi slope b multiplier alpha_fc
        Klf Kn nash_n Cgw expon max_gw_storage).Cschaake = 3 * satdk / (2 / 1000000) ∧
    (tshirt_params.make maxsmc wltsmc satdk satpsi slope b multiplier alpha_fc
        Klf Kn nash_n Cgw expon max_gw_storage).max_lateral_flow =
      satdk * multiplier *
        (tshirt_params.make maxsmc wltsmc satdk satpsi slope b multiplier alpha_fc
          Klf Kn nash_n Cgw expon max_gw_storage).max_soil_storage_meters :=
  ⟨rfl, rfl, rfl, rfl⟩

/-- Claim C8 counterexample: the tshirt_params constructor, applied to a
parameter set with a negative rate (satdk = -1), b = 1 and a zero maximum
groundwater storage, succeeds and returns the fully determined parameter
record with every invalid primary stored unchanged, refuting the claim that
such a construction does not succeed. -/
theorem C8_counterexample :
    tshirt_params.make 1 0 (-1) 1 1 1 1 1 1 1 0 1 1 0 =
      { maxsmc := 1, wltsmc := 0, satdk := -1, satpsi := 1, slope := 1, b := 1,
        multiplier := 1, alpha_fc := 1, Klf := 1, Kn := 1, nash_n := 0, Cgw := 1,
        Cschaake := -1500000, expon := 1, max_soil_storage_meters := 2,
        max_groundwater_storage_meters := 0, max_lateral_flow := -2 } ∧
    ¬ (0 : ℚ) ≤ (-1 : ℚ) := by
  norm_num [tshirt_params.make]

/-- Claim C8 amended: tshirt_params construction performs no domain
validation at all: it is total, accepts every input (including negative
rates, b = 1 and zero maximum storage) and stores every primary unchanged,
deriving the secondary values regardless. -/
theorem C8_no_validation (maxsmc wltsmc satdk satpsi slope b multiplier
    alpha_fc Klf Kn : ℚ) (nash_n : ℕ) (Cgw expon max_gw_storage : ℚ) :
    (tshirt_params.make maxsmc wltsmc satdk satpsi slope b multiplier alpha_fc
        Klf Kn nash_n Cgw expon max_gw_storage).maxsmc = maxsmc ∧
    (tshirt_params.make maxsmc wltsmc satdk satpsi slope b multiplier alpha_fc
        Klf Kn nash_n Cgw expon max_gw_storage).satdk = satdk ∧
    (tshirt_params.make maxsmc wltsmc satdk satpsi slope b multiplier alpha_fc
        Klf Kn nash_n Cgw expon max_gw_storage).b = b ∧
    (tshirt_params.make maxsmc wltsmc satdk satpsi slope b multiplier alpha_fc
        Klf Kn nash_n Cgw expon max_gw_storage).slope = slope ∧
    (tshirt_params.make maxsmc wltsmc satdk satpsi slope b multiplier alpha_fc
        Klf Kn nash_n Cgw expon max_gw_storage).Klf = Klf ∧
    (tshirt_params.make maxsmc wltsmc satdk satpsi slope b multiplier alpha_fc
        Klf Kn nash_n Cgw expon max_gw_storage).Kn = Kn ∧
    (tshirt_params.make maxsmc wltsmc satdk satpsi slope b multiplier alpha_fc
        Klf Kn nash_n Cgw expon max_gw_storage).Cgw = Cgw ∧
    (tshirt_params.make maxsmc wltsmc satdk satpsi slope b multiplier alpha_fc
        Klf Kn nash_n Cgw expon max_gw_storage).max_groundwater_storage_meters =
      max_gw_storage :=
  ⟨rfl, rfl, rfl, rfl, rfl, rfl, rfl, rfl⟩

/-- Claim C4: in the literal embedding of tshirt_kernel::run, where the
subsurface outlet vector is default-constructed with size 0 and each
operator[] assignment is a checked write, every invocation fails with the
out-of-bounds error at the outlet writes, before the soil reservoir is
built. -/
theorem C4_run_checked_out_of_bounds (env : ExternalEnv) (dt : ℚ)
    (params : tshirt_params) (state new_state0 : tshirt_state)
    (input_flux_meters : ℚ) :
    tshirt_kernel.run_checked env dt params state new_state0 input_flux_meters =
      Except.error TshirtRunError.outletIndexOutOfBounds := rfl

/-- Claim C10: constructing a tshirt_model through the single-argument
constructor, whose default initial state carries a null cascade storage
pointer, reaches the error branch of the Option-valued pointer access
whenever nash_n is positive. -/
theorem C10_default_state_null_pointer (env : ExternalEnv)
    (params : tshirt_params) (h : 0 < params.nash_n) :
    tshirt_model.construct_default env params = none := by
  unfold tshirt_model.construct_default tshirt_model.construct
  cases hn : params.nash_n with
  | zero => omega
  | succ k =>
    rw [List.range_succ_eq_map]
    simp [List.mapM_cons, List.mapM.loop]

/-- Claim C10 witness: with one cascade stage configured, the default-state
construction fails. -/
theorem C10_default_state_null_pointer_witness :
    tshirt_model.construct_default envA paramsB = none :=
  C10_default_state_null_pointer envA paramsB (by decide)


/-- Claim C1 counterexample: at a concrete parameter set with maxsmc = 1/4
(so max_soil_storage_meters = 1/2) and a large input, one step of run
produces a new soil storage of 2 (the reservoir's actual bound,
params.depth), which exceeds max_soil_storage_meters: the soil reservoir
that run constructs does not enforce max_soil_storage_meters as its upper
bound. -/
theorem C1_counterexample :
    tshirt_kernel.run envA 1 paramsA stateZ stateZ 10 = some (nsA, flA) ∧
    paramsA.max_soil_storage_meters = 1/2 ∧
    nsA.soil_storage_meters = 2 ∧ ¬ ((2 : ℚ) ≤ 1/2) := by
  refine ⟨?_, by norm_num [paramsA, tshirt_params.make], rfl, by norm_num⟩
  norm_num [tshirt_kernel.run, tshirt_kernel.run_subsurface_reservoir,
    tshirt_kernel.run_subsurface_outlets, tshirt_kernel.calc_soil_field_capacity_storage,
    tshirt_kernel.calc_evapotranspiration, tshirt_kernel.init_nash_cascade_vector,
    tshirt_kernel.run_groundwater_reservoir, tshirt_kernel.nash_loop,
    tshirt_kernel.lf_outlet_index, tshirt_kernel.perc_outlet_index,
    Nonlinear_Reservoir.response_meters_per_second, Nonlinear_Reservoir.mkSingle,
    Nonlinear_Reservoir.mkMulti, Nonlinear_Reservoir.get_storage_height_meters,
    Nonlinear_Reservoir.velocity_meters_per_second_for_outlet,
    Reservoir_Outlet.velocity, envA, paramsA, stateZ, nsA, flA,
    tshirt_params.make, tshirt_params.depth,
    List.mapM_nil, List.mapM_cons, List.mapM.loop, List.range_succ, List.range_zero,
    min_def, max_def]

/-- Claim C1 amended: for every successful step, the new groundwater storage
lies in [0, max_groundwater_storage_meters] (given a non-negative configured
maximum), and the post-routing soil storage lies in [0, params.depth], the
bound the soil reservoir is actually constructed with (not
max_soil_storage_meters); the final soil storage is the post-routing value
minus the ET loss, with no further clamping. -/
theorem C1_reachable_bounds (env : ExternalEnv) (dt : ℚ) (params : tshirt_params)
    (state new_state0 : tshirt_state) (input_flux_meters : ℚ)
    (ns : tshirt_state) (fl : tshirt_fluxes)
    (hgw : 0 ≤ params.max_groundwater_storage_meters)
    (hrun : tshirt_kernel.run env dt params state new_state0 input_flux_meters =
      some (ns, fl)) :
    (0 ≤ ns.groundwater_storage_meters ∧
      ns.groundwater_storage_meters ≤ params.max_groundwater_storage_meters) ∧
    ns.soil_storage_meters =
      tshirt_kernel.run_new_soil_storage env dt params state input_flux_meters -
        fl.et_loss_meters ∧
    0 ≤ tshirt_kernel.run_new_soil_storage env dt params state input_flux_meters ∧
    tshirt_kernel.run_new_soil_storage env dt params state input_flux_meters ≤
      params.depth := by
  cases hinit : tshirt_kernel.init_nash_cascade_vector params state
      (tshirt_kernel.calc_soil_field_capacity_storage env params state)
      params.max_lateral_flow with
  | none => simp [tshirt_kernel.run, hinit] at hrun
  | some nc =>
    simp only [tshirt_kernel.run, hinit] at hrun
    rw [Option.some.injEq, Prod.mk.injEq] at hrun
    obtain ⟨hns, hfl⟩ := hrun
    subst hns hfl
    refine ⟨⟨?_, ?_⟩, ?_, ?_, ?_⟩
    · simp only [tshirt_kernel.run_groundwater_reservoir, Nonlinear_Reservoir.mkSingle,
        Nonlinear_Reservoir.response_meters_per_second,
        Nonlinear_Reservoir.get_storage_height_meters]
      exact le_max_left _ _
    · simp only [tshirt_kernel.run_groundwater_reservoir, Nonlinear_Reservoir.mkSingle,
        Nonlinear_Reservoir.response_meters_per_second,
        Nonlinear_Reservoir.get_storage_height_meters]
      exact max_le hgw (min_le_left _ _)
    · rfl
    · simp only [tshirt_kernel.run_new_soil_storage, tshirt_kernel.run_subsurface_reservoir,
        Nonlinear_Reservoir.mkMulti, Nonlinear_Reservoir.response_meters_per_second,
        Nonlinear_Reservoir.get_storage_height_meters]
      exact le_max_left _ _
    · simp only [tshirt_kernel.run_new_soil_storage, tshirt_kernel.run_subsurface_reservoir,
        Nonlinear_Reservoir.mkMulti, Nonlinear_Reservoir.response_meters_per_second,
        Nonlinear_Reservoir.get_storage_height_meters, tshirt_params.depth]
      exact max_le (by norm_num) (min_le_left _ _)

/-- Claim C1 amended witness: the bounds theorem applied at a concrete
successful step. -/
theorem C1_reachable_bounds_witness :
    ((0 : ℚ) ≤ nsA.groundwater_storage_meters ∧
      nsA.groundwater_storage_meters ≤ paramsA.max_groundwater_storage_meters) ∧
    nsA.soil_storage_meters =
      tshirt_kernel.run_new_soil_storage envA 1 paramsA stateZ 10 -
        flA.et_loss_meters ∧
    0 ≤ tshirt_kernel.run_new_soil_storage envA 1 paramsA stateZ 10 ∧
    tshirt_kernel.run_new_soil_storage envA 1 paramsA stateZ 10 ≤
      paramsA.depth :=
  C1_reachable_bounds envA 1 paramsA stateZ stateZ 10 nsA flA
    (by norm_num [paramsA, tshirt_params.make])
    (by norm_num [tshirt_kernel.run, tshirt_kernel.run_subsurface_reservoir,
      tshirt_kernel.run_subsurface_outlets, tshirt_kernel.calc_soil_field_capacity_storage,
      tshirt_kernel.calc_evapotranspiration, tshirt_kernel.init_nash_cascade_vector,
      tshirt_kernel.run_groundwater_reservoir, tshirt_kernel.nash_loop,
      tshirt_kernel.lf_outlet_index, tshirt_kernel.perc_outlet_index,
      Nonlinear_Reservoir.response_meters_per_second, Nonlinear_Reservoir.mkSingle,
      Nonlinear_Reservoir.mkMulti, Nonlinear_Reservoir.get_storage_height_meters,
      Nonlinear_Reservoir.velocity_meters_per_second_for_outlet,
      Reservoir_Outlet.velocity, envA, paramsA, stateZ, nsA, flA,
      tshirt_params.make, tshirt_params.depth,
      List.mapM_nil, List.mapM_cons, List.mapM.loop, List.range_succ, List.range_zero,
      min_def, max_def])

/-- Claim C2: at a concrete step with one cascade stage whose reservoir
absorbs a lateral inflow (its post-step storage is 1/2 while the incoming
state held 0), run returns a new state whose cascade storage field is
exactly the untouched value of the in-out new_state argument (here none):
the per-stage cascade storages computed by run are discarded instead of
being assembled into the new state. -/
theorem C2_cascade_storages_discarded :
    tshirt_kernel.run envA 1 paramsB stateB stateZ 0 = some (nsB, flA) ∧
    nsB.nash_cascade_storeage_meters = stateZ.nash_cascade_storeage_meters ∧
    tshirt_kernel.run_nash_final_storages envA 1 paramsB stateB 0 = some [1/2] ∧
    stateB.nash_cascade_storeage_meters = some [0] ∧
    ¬ ((1 : ℚ)/2 = 0) := by
  refine ⟨?_, rfl, ?_, rfl, by norm_num⟩
  · norm_num [tshirt_kernel.run, tshirt_kernel.run_subsurface_reservoir,
      tshirt_kernel.run_subsurface_outlets, tshirt_kernel.calc_soil_field_capacity_storage,
      tshirt_kernel.calc_evapotranspiration, tshirt_kernel.init_nash_cascade_vector,
      tshirt_kernel.run_groundwater_reservoir, tshirt_kernel.nash_loop,
      tshirt_kernel.lf_outlet_index, tshirt_kernel.perc_outlet_index,
      Nonlinear_Reservoir.response_meters_per_second, Nonlinear_Reservoir.mkSingle,
      Nonlinear_Reservoir.mkMulti, Nonlinear_Reservoir.get_storage_height_meters,
      Nonlinear_Reservoir.velocity_meters_per_second_for_outlet,
      Reservoir_Outlet.velocity, envA, paramsB, stateB, stateZ, nsB, flA,
      tshirt_params.make, tshirt_params.depth,
      List.mapM_nil, List.mapM_cons, List.mapM.loop, List.range_succ, List.range_zero,
      min_def, max_def]
  · norm_num [tshirt_kernel.run_nash_final_storages, tshirt_kernel.run_Qlf0,
      tshirt_kernel.run_subsurface_reservoir,
      tshirt_kernel.run_subsurface_outlets, tshirt_kernel.calc_soil_field_capacity_storage,
      tshirt_kernel.init_nash_cascade_vector, tshirt_kernel.nash_loop,
      tshirt_kernel.lf_outlet_index,
      Nonlinear_Reservoir.response_meters_per_second, Nonlinear_Reservoir.mkSingle,
      Nonlinear_Reservoir.mkMulti, Nonlinear_Reservoir.get_storage_height_meters,
      Nonlinear_Reservoir.velocity_meters_per_second_for_outlet,
      Reservoir_Outlet.velocity, envA, paramsB, stateB,
      tshirt_params.make, tshirt_params.depth,
      List.mapM_nil, List.mapM_cons, List.mapM.loop, List.range_succ, List.range_zero,
      min_def, max_def]

/-- Claim C3 counterexample: at a concrete parameter set with expon = 5, the
groundwater reservoir constructed by run has its single outlet's exponent
equal to 1, not to expon: the literal 1 is passed as the exponent argument
while expon only enters the maximum velocity. -/
theorem C3_counterexample :
    (tshirt_kernel.run_groundwater_reservoir envA paramsC stateZ).outlets.map
        Reservoir_Outlet.exponent = [1] ∧
    paramsC.expon = 5 ∧ ¬ ((1 : ℚ) = 5) := by
  norm_num [tshirt_kernel.run_groundwater_reservoir, Nonlinear_Reservoir.mkSingle,
    envA, paramsC, stateZ, tshirt_params.make]

/-- Claim C3 amended: for every parameter set and state, the groundwater
reservoir is configured with minimum storage 0, maximum storage
max_groundwater_storage_meters, initial storage from the state, and a single
outlet with coefficient Cgw, exponent 1 (not expon), activation threshold 0,
and maximum velocity Cgw x (exp(expon) - 1); the tshirt_model constructor
path builds the identical reservoir whenever it succeeds. -/
theorem C3_gw_outlet_config (env : ExternalEnv) (params : tshirt_params)
    (state : tshirt_state) :
    (tshirt_kernel.run_groundwater_reservoir env params state).outlets =
      [{ coefficient := params.Cgw, exponent := 1, activation_threshold := 0,
         max_velocity := params.Cgw * (env.rexp params.expon - 1) }] ∧
    (tshirt_kernel.run_groundwater_reservoir env params state).min_storage = 0 ∧
    (tshirt_kernel.run_groundwater_reservoir env params state).max_storage =
      params.max_groundwater_storage_meters ∧
    (tshirt_kernel.run_groundwater_reservoir env params state).storage =
      state.groundwater_storage_meters ∧
    (tshirt_model.construct env params state).elim True (fun m =>
      m.groundwater_reservoir =
        tshirt_kernel.run_groundwater_reservoir env params state) := by
  refine ⟨rfl, rfl, rfl, rfl, ?_⟩
  cases hc : tshirt_model.construct env params state with
  | none => trivial
  | some m =>
    simp only [tshirt_model.construct] at hc
    obtain ⟨nash, hX, hF⟩ := Option.map_eq_some'.mp hc
    rw [← hF]
    rfl

/-- Claim C5: for every successful step, the lateral flow flux run reports
equals the left fold that routes the subsurface lateral flow velocity
through the cascade stages in list order, where each stage contributes its
response output velocity plus its own excess divided by dt to the running
value passed to the next stage: no stage's excess is discarded. -/
theorem C5_cascade_excess (env : ExternalEnv) (dt : ℚ) (params : tshirt_params)
    (state new_state0 : tshirt_state) (input_flux_meters : ℚ)
    (ns : tshirt_state) (fl : tshirt_fluxes) (nc : List Nonlinear_Reservoir)
    (hinit : tshirt_kernel.init_nash_cascade_vector params state
      (tshirt_kernel.calc_soil_field_capacity_storage env params state)
      params.max_lateral_flow = some nc)
    (hrun : tshirt_kernel.run env dt params state new_state0 input_flux_meters =
      some (ns, fl)) :
    fl.soil_lateral_flow_meters_per_second =
      nc.foldl (fun q r =>
        (r.response_meters_per_second env q dt).1 +
          (r.response_meters_per_second env q dt).2.1 / dt)
        (tshirt_kernel.run_Qlf0 env dt params state input_flux_meters) := by
  simp only [tshirt_kernel.run, hinit] at hrun
  rw [Option.some.injEq, Prod.mk.injEq] at hrun
  obtain ⟨hns, hfl⟩ := hrun
  subst hfl
  rw [← nash_loop_fst_eq_foldl]
  rfl

/-- Claim C5 witness: the cascade routing theorem applied at a concrete step
with one cascade stage. -/
theorem C5_cascade_excess_witness :
    flA.soil_lateral_flow_meters_per_second =
      ncB.foldl (fun q r =>
        (r.response_meters_per_second envA q 1).1 +
          (r.response_meters_per_second envA q 1).2.1 / 1)
        (tshirt_kernel.run_Qlf0 envA 1 paramsB stateB 0) :=
  C5_cascade_excess envA 1 paramsB stateB stateZ 0 nsB flA ncB
    (by norm_num [tshirt_kernel.init_nash_cascade_vector,
      tshirt_kernel.calc_soil_field_capacity_storage, Nonlinear_Reservoir.mkSingle,
      envA, paramsB, stateB, ncB, tshirt_params.make,
      List.mapM_nil, List.mapM_cons, List.mapM.loop, List.range_succ, List.range_zero])
    (by norm_num [tshirt_kernel.run, tshirt_kernel.run_subsurface_reservoir,
      tshirt_kernel.run_subsurface_outlets, tshirt_kernel.calc_soil_field_capacity_storage,
      tshirt_kernel.calc_evapotranspiration, tshirt_kernel.init_nash_cascade_vector,
      tshirt_kernel.run_groundwater_reservoir, tshirt_kernel.nash_loop,
      tshirt_kernel.lf_outlet_index, tshirt_kernel.perc_outlet_index,
      Nonlinear_Reservoir.response_meters_per_second, Nonlinear_Reservoir.mkSingle,
      Nonlinear_Reservoir.mkMulti, Nonlinear_Reservoir.get_storage_height_meters,
      Nonlinear_Reservoir.velocity_meters_per_second_for_outlet,
      Reservoir_Outlet.velocity, envA, paramsB, stateB, stateZ, nsB, flA,
      tshirt_params.make, tshirt_params.depth,
      List.mapM_nil, List.mapM_cons, List.mapM.loop, List.range_succ, List.range_zero,
      min_def, max_def])

/-- Claim C6 counterexample: with an ET submodel whose returned loss exceeds
the post-routing storage, run produces a new soil storage of -1, below 0:
the subtraction of the ET loss is not clamped at 0. -/
theorem C6_counterexample :
    tshirt_kernel.run envC 1 paramsA stateZ stateZ 10 = some (nsC6, flC6) ∧
    nsC6.soil_storage_meters = -1 ∧ ¬ ((0 : ℚ) ≤ -1) := by
  refine ⟨?_, rfl, by norm_num⟩
  norm_num [tshirt_kernel.run, tshirt_kernel.run_subsurface_reservoir,
    tshirt_kernel.run_subsurface_outlets, tshirt_kernel.calc_soil_field_capacity_storage,
    tshirt_kernel.calc_evapotranspiration, tshirt_kernel.init_nash_cascade_vector,
    tshirt_kernel.run_groundwater_reservoir, tshirt_kernel.nash_loop,
    tshirt_kernel.lf_outlet_index, tshirt_kernel.perc_outlet_index,
    Nonlinear_Reservoir.response_meters_per_second, Nonlinear_Reservoir.mkSingle,
    Nonlinear_Reservoir.mkMulti, Nonlinear_Reservoir.get_storage_height_meters,
    Nonlinear_Reservoir.velocity_meters_per_second_for_outlet,
    Reservoir_Outlet.velocity, envC, envA, paramsA, stateZ, nsC6, flC6,
    tshirt_params.make, tshirt_params.depth,
    List.mapM_nil, List.mapM_cons, List.mapM.loop, List.range_succ, List.range_zero,
    min_def, max_def]

/-- Claim C6 amended: for every successful step, the reported ET loss is the
ET submodel's value at the post-routing soil storage, and the new soil
storage equals the post-routing storage minus that loss; no lower clamp at 0
is applied, so the result is negative whenever the loss exceeds the
storage. -/
theorem C6_et_subtraction (env : ExternalEnv) (dt : ℚ) (params : tshirt_params)
    (state new_state0 : tshirt_state) (input_flux_meters : ℚ)
    (ns : tshirt_state) (fl : tshirt_fluxes)
    (hrun : tshirt_kernel.run env dt params state new_state0 input_flux_meters =
      some (ns, fl)) :
    fl.et_loss_meters = tshirt_kernel.calc_evapotranspiration env
      (tshirt_kernel.run_new_soil_storage env dt params state input_flux_meters) ∧
    ns.soil_storage_meters =
      tshirt_kernel.run_new_soil_storage env dt params state input_flux_meters -
        fl.et_loss_meters := by
  cases hinit : tshirt_kernel.init_nash_cascade_vector params state
      (tshirt_kernel.calc_soil_field_capacity_storage env params state)
      params.max_lateral_flow with
  | none => simp [tshirt_kernel.run, hinit] at hrun
  | some nc =>
    simp only [tshirt_kernel.run, hinit] at hrun
    rw [Option.some.injEq, Prod.mk.injEq] at hrun
    obtain ⟨hns, hfl⟩ := hrun
    subst hns hfl
    exact ⟨rfl, rfl⟩

/-- Claim C6 amended witness: the ET subtraction theorem applied at the
concrete step whose loss exceeds the storage. -/
theorem C6_et_subtraction_witness :
    flC6.et_loss_meters = tshirt_kernel.calc_evapotranspiration envC
      (tshirt_kernel.run_new_soil_storage envC 1 paramsA stateZ 10) ∧
    nsC6.soil_storage_meters =
      tshirt_kernel.run_new_soil_storage envC 1 paramsA stateZ 10 -
        flC6.et_loss_meters :=
  C6_et_subtraction envC 1 paramsA stateZ stateZ 10 nsC6 flC6
    (by norm_num [tshirt_kernel.run, tshirt_kernel.run_subsurface_reservoir,
      tshirt_kernel.run_subsurface_outlets, tshirt_kernel.calc_soil_field_capacity_storage,
      tshirt_kernel.calc_evapotranspiration, tshirt_kernel.init_nash_cascade_vector,
      tshirt_kernel.run_groundwater_reservoir, tshirt_kernel.nash_loop,
      tshirt_kernel.lf_outlet_index, tshirt_kernel.perc_outlet_index,
      Nonlinear_Reservoir.response_meters_per_second, Nonlinear_Reservoir.mkSingle,
      Nonlinear_Reservoir.mkMulti, Nonlinear_Reservoir.get_storage_height_meters,
      Nonlinear_Reservoir.velocity_meters_per_second_for_outlet,
      Reservoir_Outlet.velocity, envC, envA, paramsA, stateZ, nsC6, flC6,
      tshirt_params.make, tshirt_params.depth,
      List.mapM_nil, List.mapM_cons, List.mapM.loop, List.range_succ, List.range_zero,
      min_def, max_def])

/-- Claim C7: for every environment, parameter set and state with an
in-bounds cascade storage array, the stateful construction path (the
tshirt_model constructor) succeeds and builds the soil reservoir, the
groundwater reservoir and the Nash cascade reservoirs with exactly the
configurations the stateless per-step path inside run builds from the same
parameters and state (same minimum and maximum storage, initial storage,
and outlet coefficient, exponent, activation threshold and maximum
velocity). -/
theorem C7_paths_agree (env : ExternalEnv) (params : tshirt_params)
    (state : tshirt_state) (l : List ℚ)
    (hl : state.nash_cascade_storeage_meters = some l)
    (hlen : params.nash_n ≤ l.length) :
    (tshirt_model.construct env params state).map tshirt_model.soil_reservoir =
      some (tshirt_kernel.run_subsurface_reservoir env params state) ∧
    (tshirt_model.construct env params state).map tshirt_model.groundwater_reservoir =
      some (tshirt_kernel.run_groundwater_reservoir env params state) ∧
    (tshirt_model.construct env params state).map tshirt_model.soil_lf_nash_res =
      tshirt_kernel.init_nash_cascade_vector params state
        (tshirt_kernel.calc_soil_field_capacity_storage env params state)
        params.max_lateral_flow := by
  have hg : ∀ i ∈ List.range params.nash_n,
      ((state.nash_cascade_storeage_meters.bind fun arr => arr.get? i).map fun s =>
        Nonlinear_Reservoir.mkSingle 0 params.max_soil_storage_meters s params.Kn 1
          (tshirt_model.calc_soil_field_capacity_storage env params state)
          params.max_lateral_flow) =
      some (Nonlinear_Reservoir.mkSingle 0 params.max_soil_storage_meters (l.getD i 0)
        params.Kn 1 (tshirt_model.calc_soil_field_capacity_storage env params state)
        params.max_lateral_flow) := by
    intro i hi
    rw [hl, Option.some_bind,
      list_get?_eq_getD (lt_of_lt_of_le (List.mem_range.mp hi) hlen)]
    rfl
  have hg2 : ∀ i ∈ List.range params.nash_n,
      ((state.nash_cascade_storeage_meters.bind fun arr => arr.get? i).map fun s =>
        Nonlinear_Reservoir.mkSingle 0 params.max_soil_storage_meters s params.Kn 1
          (tshirt_kernel.calc_soil_field_capacity_storage env params state)
          params.max_lateral_flow) =
      some (Nonlinear_Reservoir.mkSingle 0 params.max_soil_storage_meters (l.getD i 0)
        params.Kn 1 (tshirt_kernel.calc_soil_field_capacity_storage env params state)
        params.max_lateral_flow) := by
    intro i hi
    rw [hl, Option.some_bind,
      list_get?_eq_getD (lt_of_lt_of_le (List.mem_range.mp hi) hlen)]
    rfl
  have hmap := list_mapM_option_eq_map
    (fun i => (state.nash_cascade_storeage_meters.bind fun arr => arr.get? i).map fun s =>
      Nonlinear_Reservoir.mkSingle 0 params.max_soil_storage_meters s params.Kn 1
        (tshirt_model.calc_soil_field_capacity_storage env params state)
        params.max_lateral_flow)
    (fun i => Nonlinear_Reservoir.mkSingle 0 params.max_soil_storage_meters (l.getD i 0)
      params.Kn 1 (tshirt_model.calc_soil_field_capacity_storage env params state)
      params.max_lateral_flow)
    (List.range params.nash_n) hg
  have hmap2 := list_mapM_option_eq_map
    (fun i => (state.nash_cascade_storeage_meters.bind fun arr => arr.get? i).map fun s =>
      Nonlinear_Reservoir.mkSingle 0 params.max_soil_storage_meters s params.Kn 1
        (tshirt_kernel.calc_soil_field_capacity_storage env params state)
        params.max_lateral_flow)
    (fun i => Nonlinear_Reservoir.mkSingle 0 params.max_soil_storage_meters (l.getD i 0)
      params.Kn 1 (tshirt_kernel.calc_soil_field_capacity_storage env params state)
      params.max_lateral_flow)
    (List.range params.nash_n) hg2
  refine ⟨?_, ?_, ?_⟩
  · simp only [tshirt_model.construct]
    rw [hmap]
    rfl
  · simp only [tshirt_model.construct]
    rw [hmap]
    rfl
  · simp only [tshirt_model.construct]
    rw [hmap]
    simp only [Option.map_some']
    simp only [tshirt_kernel.init_nash_cascade_vector]
    exact hmap2.symm

/-- Claim C7 witness: the construction equivalence theorem applied to a
concrete parameter set with two cascade stages and a state holding two
cascade storages. -/
theorem C7_paths_agree_witness :
    (tshirt_model.construct envA paramsD stateD).map tshirt_model.soil_reservoir =
      some (tshirt_kernel.run_subsurface_reservoir envA paramsD stateD) ∧
    (tshirt_model.construct envA paramsD stateD).map tshirt_model.groundwater_reservoir =
      some (tshirt_kernel.run_groundwater_reservoir envA paramsD stateD) ∧
    (tshirt_model.construct envA paramsD stateD).map tshirt_model.soil_lf_nash_res =
      tshirt_kernel.init_nash_cascade_vector paramsD stateD
        (tshirt_kernel.calc_soil_field_capacity_storage envA paramsD stateD)
        paramsD.max_lateral_flow :=
  C7_paths_agree envA paramsD stateD [0, 0] rfl
    (by norm_num [paramsD, tshirt_params.make])
